import Mathlib

/-!
Verification of the guarantee-cost calculation in `APG_Kenya1.py`.

The calculation block of the script (lines 51–84) is a straight-line pure
arithmetic transformation of ten scalar inputs into the result fields shown
in the summary table.  We embed it shallowly: the numeric inputs and outputs
become rationals (`ℚ`, exact arithmetic matching the closed-form formulas),
the integer-valued inputs (`month` counts and the number of phases, read by
`st.number_input` with integer bounds) become naturals, and the calculation
block becomes a total function `compute : InputParameters → CalculationResult`.
The helper `calc_costs` is embedded as-is.
-/

namespace APGKenya

/-- The ten input parameters gathered by the input section of the script
(lines 33–45).  Percentages and the fee rate are stored already divided by
100, exactly as the script does at the read site. -/
structure InputParameters where
  total_contract_value : ℚ
  advance_payment_percent_orig : ℚ
  pg_percent_orig : ℚ
  construction_duration_orig : ℕ
  dlp_duration_orig : ℕ
  num_phases : ℕ
  pg_percent_phased : ℚ
  construction_duration_phased : ℕ
  dlp_duration_phased : ℕ
  bank_fee_rate : ℚ

/-- The declared input ranges (spec §3; the widget bounds at lines 33–45 of
the script): positive contract value, percentages in [0,1], months and phase
count in their integer ranges, fee rate in [0.001, 0.10]. -/
def ValidInput (p : InputParameters) : Prop :=
  0 < p.total_contract_value ∧
  0 ≤ p.advance_payment_percent_orig ∧ p.advance_payment_percent_orig ≤ 1 ∧
  0 ≤ p.pg_percent_orig ∧ p.pg_percent_orig ≤ 1 ∧
  1 ≤ p.construction_duration_orig ∧ p.construction_duration_orig ≤ 24 ∧
  p.dlp_duration_orig ≤ 12 ∧
  1 ≤ p.num_phases ∧ p.num_phases ≤ 5 ∧
  0 ≤ p.pg_percent_phased ∧ p.pg_percent_phased ≤ 1 ∧
  1 ≤ p.construction_duration_phased ∧ p.construction_duration_phased ≤ 6 ∧
  p.dlp_duration_phased ≤ 12 ∧
  1/1000 ≤ p.bank_fee_rate ∧ p.bank_fee_rate ≤ 1/10

instance (p : InputParameters) : Decidable (ValidInput p) := by
  unfold ValidInput; infer_instance

/-- `calc_costs` (script lines 9–13): annual cost is value × rate, total cost
is annual cost × duration in years; returns the pair `(annual, total)`. -/
def calc_costs (value rate duration_years : ℚ) : ℚ × ℚ :=
  let annual := value * rate
  let total := annual * duration_years
  (annual, total)

/-- Every derived quantity produced by the calculations block of the script
(lines 51–84). -/
structure CalculationResult where
  apg_value_orig : ℚ
  pg_value_orig : ℚ
  phase_contract_value : ℚ
  apg_value_phased : ℚ
  pg_value_phased : ℚ
  apg_duration_orig : ℚ
  pg_duration_orig : ℚ
  apg_duration_phased : ℚ
  pg_duration_phased : ℚ
  apg_annual_cost_orig : ℚ
  apg_total_cost_orig : ℚ
  pg_annual_cost_orig : ℚ
  pg_total_cost_orig : ℚ
  total_cost_orig : ℚ
  apg_annual_cost_phased : ℚ
  apg_cost_per_phase : ℚ
  pg_annual_cost_phased : ℚ
  pg_cost_per_phase : ℚ
  apg_total_cost_phased : ℚ
  pg_total_cost_phased : ℚ
  total_cost_phased : ℚ
  apg_savings : ℚ
  pg_savings : ℚ
  total_savings : ℚ
  credit_line_orig : ℚ
  credit_line_phased : ℚ
  credit_line_savings : ℚ

/-- The calculations block (script lines 51–84), transcribed line by line. -/
def compute (p : InputParameters) : CalculationResult :=
  let apg_value_orig := p.total_contract_value * p.advance_payment_percent_orig
  let pg_value_orig := p.total_contract_value * p.pg_percent_orig
  let phase_contract_value := p.total_contract_value / (p.num_phases : ℚ)
  let apg_value_phased := phase_contract_value * p.advance_payment_percent_orig
  let pg_value_phased := phase_contract_value * p.pg_percent_phased
  let apg_duration_orig := (p.construction_duration_orig : ℚ) / 12
  let pg_duration_orig := ((p.construction_duration_orig : ℚ) + (p.dlp_duration_orig : ℚ)) / 12
  let apg_duration_phased := (p.construction_duration_phased : ℚ) / 12
  let pg_duration_phased := ((p.construction_duration_phased : ℚ) + (p.dlp_duration_phased : ℚ)) / 12
  let ac1 := calc_costs apg_value_orig p.bank_fee_rate apg_duration_orig
  let ac2 := calc_costs pg_value_orig p.bank_fee_rate pg_duration_orig
  let total_cost_orig := ac1.2 + ac2.2
  let ac3 := calc_costs apg_value_phased p.bank_fee_rate apg_duration_phased
  let ac4 := calc_costs pg_value_phased p.bank_fee_rate pg_duration_phased
  let apg_total_cost_phased := ac3.2 * (p.num_phases : ℚ)
  let pg_total_cost_phased := ac4.2 * (p.num_phases : ℚ)
  let total_cost_phased := apg_total_cost_phased + pg_total_cost_phased
  let apg_savings := ac1.2 - apg_total_cost_phased
  let pg_savings := ac2.2 - pg_total_cost_phased
  let total_savings := total_cost_orig - total_cost_phased
  let credit_line_orig := apg_value_orig
  let credit_line_phased := apg_value_phased + pg_value_phased
  let credit_line_savings := credit_line_orig - credit_line_phased
  { apg_value_orig := apg_value_orig
    pg_value_orig := pg_value_orig
    phase_contract_value := phase_contract_value
    apg_value_phased := apg_value_phased
    pg_value_phased := pg_value_phased
    apg_duration_orig := apg_duration_orig
    pg_duration_orig := pg_duration_orig
    apg_duration_phased := apg_duration_phased
    pg_duration_phased := pg_duration_phased
    apg_annual_cost_orig := ac1.1
    apg_total_cost_orig := ac1.2
    pg_annual_cost_orig := ac2.1
    pg_total_cost_orig := ac2.2
    total_cost_orig := total_cost_orig
    apg_annual_cost_phased := ac3.1
    apg_cost_per_phase := ac3.2
    pg_annual_cost_phased := ac4.1
    pg_cost_per_phase := ac4.2
    apg_total_cost_phased := apg_total_cost_phased
    pg_total_cost_phased := pg_total_cost_phased
    total_cost_phased := total_cost_phased
    apg_savings := apg_savings
    pg_savings := pg_savings
    total_savings := total_savings
    credit_line_orig := credit_line_orig
    credit_line_phased := credit_line_phased
    credit_line_savings := credit_line_savings }

/-- The concrete scenario of spec §8: the default widget values of the
script's input section. -/
def scenarioInput : InputParameters :=
  { total_contract_value := 320000000
    advance_payment_percent_orig := 40/100
    pg_percent_orig := 30/100
    construction_duration_orig := 12
    dlp_duration_orig := 6
    num_phases := 4
    pg_percent_phased := 10/100
    construction_duration_phased := 3
    dlp_duration_phased := 6
    bank_fee_rate := 1/100 }

end APGKenya

namespace APGKenya

/-- Doubling the total contract value while holding every other parameter
fixed (used for the scaling property of spec §8). -/
def doubleContract (p : InputParameters) : InputParameters :=
  { p with total_contract_value := 2 * p.total_contract_value }

/-- The computation as the script actually runs it: Python raises
`ZeroDivisionError` at `total_contract_value / num_phases` when
`num_phases = 0`, and otherwise the straight-line block succeeds.  `none`
models the failure case. -/
def computeChecked (p : InputParameters) : Option CalculationResult :=
  if p.num_phases = 0 then none else some (compute p)

/-- C1: on the concrete scenario input (the script's default widget values),
the computation yields apgValueOriginal = 128,000,000; pgValueOriginal =
96,000,000; apgDurationOriginal = 1.0; pgDurationOriginal = 1.5;
apgTotalCostOriginal = 1,280,000; pgTotalCostOriginal = 1,440,000;
totalCostOriginal = 2,720,000; phaseContractValue = 80,000,000;
apgValuePhased = 32,000,000; pgValuePhased = 8,000,000; creditLinePhased =
40,000,000; and creditLineOriginal = 128,000,000. -/
theorem scenario_concrete_values :
    (compute scenarioInput).apg_value_orig = 128000000 ∧
    (compute scenarioInput).pg_value_orig = 96000000 ∧
    (compute scenarioInput).apg_duration_orig = 1 ∧
    (compute scenarioInput).pg_duration_orig = 3/2 ∧
    (compute scenarioInput).apg_total_cost_orig = 1280000 ∧
    (compute scenarioInput).pg_total_cost_orig = 1440000 ∧
    (compute scenarioInput).total_cost_orig = 2720000 ∧
    (compute scenarioInput).phase_contract_value = 80000000 ∧
    (compute scenarioInput).apg_value_phased = 32000000 ∧
    (compute scenarioInput).pg_value_phased = 8000000 ∧
    (compute scenarioInput).credit_line_phased = 40000000 ∧
    (compute scenarioInput).credit_line_orig = 128000000 := by
  norm_num [compute, calc_costs, scenarioInput]

/-- C2: for every input, the original-structure outputs equal the closed-form
algorithm of spec §4.1: value = contract value × percentage, durations are
month counts over 12, total cost = value × rate × duration, annual cost is
the same product without the duration factor, and the total is the sum. -/
theorem original_structure_closed_form (p : InputParameters) :
    (compute p).apg_value_orig = p.total_contract_value * p.advance_payment_percent_orig ∧
    (compute p).pg_value_orig = p.total_contract_value * p.pg_percent_orig ∧
    (compute p).apg_duration_orig = (p.construction_duration_orig : ℚ) / 12 ∧
    (compute p).pg_duration_orig
      = ((p.construction_duration_orig : ℚ) + (p.dlp_duration_orig : ℚ)) / 12 ∧
    (compute p).apg_total_cost_orig
      = (compute p).apg_value_orig * p.bank_fee_rate * (compute p).apg_duration_orig ∧
    (compute p).apg_annual_cost_orig = (compute p).apg_value_orig * p.bank_fee_rate ∧
    (compute p).pg_total_cost_orig
      = (compute p).pg_value_orig * p.bank_fee_rate * (compute p).pg_duration_orig ∧
    (compute p).pg_annual_cost_orig = (compute p).pg_value_orig * p.bank_fee_rate ∧
    (compute p).total_cost_orig
      = (compute p).apg_total_cost_orig + (compute p).pg_total_cost_orig :=
  ⟨rfl, rfl, rfl, rfl, rfl, rfl, rfl, rfl, rfl⟩

/-- C3: for every input, the phased advance-payment guarantee value reuses the
original structure's advance-payment percentage: apgValuePhased =
phaseContractValue × advancePaymentPercentOriginal with phaseContractValue =
totalContractValue / numberOfPhases; the input model carries no distinct
phased advance-payment parameter at all. -/
theorem apg_value_phased_reuses_original_percent (p : InputParameters) :
    (compute p).phase_contract_value = p.total_contract_value / (p.num_phases : ℚ) ∧
    (compute p).apg_value_phased
      = (compute p).phase_contract_value * p.advance_payment_percent_orig ∧
    (compute p).apg_value_phased
      = p.total_contract_value / (p.num_phases : ℚ) * p.advance_payment_percent_orig :=
  ⟨rfl, rfl, rfl⟩

/-- C4: for every input, phased durations are computed per-phase exactly as the
original ones (phased month counts over 12), per-phase costs have the same
value × rate × duration form, each total phased cost is the per-phase cost
multiplied by the number of phases, and totalCostPhased is their sum. -/
theorem phased_durations_and_costs (p : InputParameters) :
    (compute p).apg_duration_phased = (p.construction_duration_phased : ℚ) / 12 ∧
    (compute p).pg_duration_phased
      = ((p.construction_duration_phased : ℚ) + (p.dlp_duration_phased : ℚ)) / 12 ∧
    (compute p).apg_cost_per_phase
      = (compute p).apg_value_phased * p.bank_fee_rate * (compute p).apg_duration_phased ∧
    (compute p).pg_cost_per_phase
      = (compute p).pg_value_phased * p.bank_fee_rate * (compute p).pg_duration_phased ∧
    (compute p).apg_total_cost_phased = (compute p).apg_cost_per_phase * (p.num_phases : ℚ) ∧
    (compute p).pg_total_cost_phased = (compute p).pg_cost_per_phase * (p.num_phases : ℚ) ∧
    (compute p).total_cost_phased
      = (compute p).apg_total_cost_phased + (compute p).pg_total_cost_phased :=
  ⟨rfl, rfl, rfl, rfl, rfl, rfl, rfl⟩

/-- C5: for every input, every savings and credit-line field is an exact
straight subtraction or sum with no rounding. -/
theorem savings_and_credit_line_exact (p : InputParameters) :
    (compute p).apg_savings
      = (compute p).apg_total_cost_orig - (compute p).apg_total_cost_phased ∧
    (compute p).pg_savings
      = (compute p).pg_total_cost_orig - (compute p).pg_total_cost_phased ∧
    (compute p).total_savings
      = (compute p).total_cost_orig - (compute p).total_cost_phased ∧
    (compute p).credit_line_orig = (compute p).apg_value_orig ∧
    (compute p).credit_line_phased
      = (compute p).apg_value_phased + (compute p).pg_value_phased ∧
    (compute p).credit_line_savings
      = (compute p).credit_line_orig - (compute p).credit_line_phased :=
  ⟨rfl, rfl, rfl, rfl, rfl, rfl⟩

end APGKenya

namespace APGKenya

/-- C6: for every input in the declared ranges, both total costs are
nonnegative. -/
theorem total_costs_nonneg (p : InputParameters) (h : ValidInput p) :
    0 ≤ (compute p).total_cost_orig ∧ 0 ≤ (compute p).total_cost_phased := by
  obtain ⟨htv, ha0, -, hp0, -, -, -, -, -, -, hq0, -, -, -, -, hr0, -⟩ := h
  have hr : (0:ℚ) ≤ p.bank_fee_rate := le_trans (by norm_num) hr0
  have htv' : (0:ℚ) ≤ p.total_contract_value := htv.le
  constructor <;>
  · simp only [compute, calc_costs]
    positivity

/-- C7: doubling the total contract value while holding the other parameters
fixed doubles every value, cost, savings and credit-line field and leaves all
four durations unchanged. -/
theorem doubling_contract_value_scales (p : InputParameters) :
    (compute (doubleContract p)).apg_value_orig = 2 * (compute p).apg_value_orig ∧
    (compute (doubleContract p)).pg_value_orig = 2 * (compute p).pg_value_orig ∧
    (compute (doubleContract p)).phase_contract_value = 2 * (compute p).phase_contract_value ∧
    (compute (doubleContract p)).apg_value_phased = 2 * (compute p).apg_value_phased ∧
    (compute (doubleContract p)).pg_value_phased = 2 * (compute p).pg_value_phased ∧
    (compute (doubleContract p)).apg_annual_cost_orig = 2 * (compute p).apg_annual_cost_orig ∧
    (compute (doubleContract p)).apg_total_cost_orig = 2 * (compute p).apg_total_cost_orig ∧
    (compute (doubleContract p)).pg_annual_cost_orig = 2 * (compute p).pg_annual_cost_orig ∧
    (compute (doubleContract p)).pg_total_cost_orig = 2 * (compute p).pg_total_cost_orig ∧
    (compute (doubleContract p)).total_cost_orig = 2 * (compute p).total_cost_orig ∧
    (compute (doubleContract p)).apg_annual_cost_phased = 2 * (compute p).apg_annual_cost_phased ∧
    (compute (doubleContract p)).apg_cost_per_phase = 2 * (compute p).apg_cost_per_phase ∧
    (compute (doubleContract p)).pg_annual_cost_phased = 2 * (compute p).pg_annual_cost_phased ∧
    (compute (doubleContract p)).pg_cost_per_phase = 2 * (compute p).pg_cost_per_phase ∧
    (compute (doubleContract p)).apg_total_cost_phased = 2 * (compute p).apg_total_cost_phased ∧
    (compute (doubleContract p)).pg_total_cost_phased = 2 * (compute p).pg_total_cost_phased ∧
    (compute (doubleContract p)).total_cost_phased = 2 * (compute p).total_cost_phased ∧
    (compute (doubleContract p)).apg_savings = 2 * (compute p).apg_savings ∧
    (compute (doubleContract p)).pg_savings = 2 * (compute p).pg_savings ∧
    (compute (doubleContract p)).total_savings = 2 * (compute p).total_savings ∧
    (compute (doubleContract p)).credit_line_orig = 2 * (compute p).credit_line_orig ∧
    (compute (doubleContract p)).credit_line_phased = 2 * (compute p).credit_line_phased ∧
    (compute (doubleContract p)).credit_line_savings = 2 * (compute p).credit_line_savings ∧
    (compute (doubleContract p)).apg_duration_orig = (compute p).apg_duration_orig ∧
    (compute (doubleContract p)).pg_duration_orig = (compute p).pg_duration_orig ∧
    (compute (doubleContract p)).apg_duration_phased = (compute p).apg_duration_phased ∧
    (compute (doubleContract p)).pg_duration_phased = (compute p).pg_duration_phased := by
  simp only [compute, calc_costs, doubleContract]
  and_intros <;> first | rfl | ring1 | ring_nf

/-- C8: on every input with at least one phase — in particular on every input
in the declared ranges — the run never fails: the guarded computation (whose
only failure point is the division `total_contract_value / num_phases`)
succeeds and returns exactly the value of the pure function `compute`. -/
theorem compute_total_on_valid_inputs (p : InputParameters) (h : ValidInput p) :
    computeChecked p = some (compute p) := by
  have hn : p.num_phases ≠ 0 := by
    obtain ⟨-, -, -, -, -, -, -, -, hn1, -⟩ := h
    omega
  simp [computeChecked, hn]

/-- C9: the three total phased costs do not depend on the number of phases:
whenever at least one phase exists, each equals the closed form in which the
division by the phase count has cancelled against the multiplication by it. -/
theorem phased_totals_independent_of_num_phases (p : InputParameters)
    (h : 1 ≤ p.num_phases) :
    (compute p).apg_total_cost_phased
      = p.total_contract_value * p.advance_payment_percent_orig * p.bank_fee_rate
          * ((p.construction_duration_phased : ℚ) / 12) ∧
    (compute p).pg_total_cost_phased
      = p.total_contract_value * p.pg_percent_phased * p.bank_fee_rate
          * (((p.construction_duration_phased : ℚ) + (p.dlp_duration_phased : ℚ)) / 12) ∧
    (compute p).total_cost_phased
      = p.total_contract_value * p.advance_payment_percent_orig * p.bank_fee_rate
          * ((p.construction_duration_phased : ℚ) / 12)
        + p.total_contract_value * p.pg_percent_phased * p.bank_fee_rate
          * (((p.construction_duration_phased : ℚ) + (p.dlp_duration_phased : ℚ)) / 12) := by
  have hn : (p.num_phases : ℚ) ≠ 0 := Nat.cast_ne_zero.mpr (by omega)
  simp only [compute, calc_costs]
  and_intros <;> field_simp <;> first | rfl | ring1

/-- C10: creditLineSavings is not guaranteed nonnegative: a valid input with a
single phase and a positive phased performance-guarantee percentage makes the
phased credit line exceed the original one. -/
theorem credit_line_savings_can_be_negative :
    ∃ p : InputParameters, ValidInput p ∧ (compute p).credit_line_savings < 0 := by
  refine ⟨{ scenarioInput with num_phases := 1 }, ?_, ?_⟩
  · norm_num [ValidInput, scenarioInput]
  · norm_num [compute, calc_costs, scenarioInput]

/-- Witness for C6 at the concrete scenario input. -/
theorem total_costs_nonneg_witness :
    ValidInput scenarioInput ∧
      0 ≤ (compute scenarioInput).total_cost_orig ∧
      0 ≤ (compute scenarioInput).total_cost_phased :=
  ⟨by norm_num [ValidInput, scenarioInput],
   total_costs_nonneg scenarioInput (by norm_num [ValidInput, scenarioInput])⟩

/-- Witness for C8 at the concrete scenario input. -/
theorem compute_total_on_valid_inputs_witness :
    ValidInput scenarioInput ∧ computeChecked scenarioInput = some (compute scenarioInput) :=
  ⟨by norm_num [ValidInput, scenarioInput],
   compute_total_on_valid_inputs scenarioInput (by norm_num [ValidInput, scenarioInput])⟩

/-- Witness for C9 at the concrete scenario input. -/
theorem phased_totals_independent_witness :
    1 ≤ scenarioInput.num_phases ∧
      (compute scenarioInput).apg_total_cost_phased
        = scenarioInput.total_contract_value * scenarioInput.advance_payment_percent_orig
            * scenarioInput.bank_fee_rate
            * ((scenarioInput.construction_duration_phased : ℚ) / 12) :=
  ⟨by norm_num [scenarioInput],
   (phased_totals_independent_of_num_phases scenarioInput (by norm_num [scenarioInput])).1⟩

end APGKenya
